import Mathlib

/-!
Shallow embedding of the Composite Risk Scoring Engine of
`analysis_engine.py` (crypto-investment-dashboard).

Numeric values are modelled as rationals; Python `None` is modelled as
`Option`.  Dictionary plumbing (symbol keys, `.replace("USDT","")`
lookups) is resolved at the data level: each tracked asset carries the
raw readings the engine fetches for it, and missing dictionary entries
appear as `none` / default values exactly where the source applies its
`.get(..., default)` calls.
-/

namespace AnalysisEngine

/-- `WEIGHTS` dict of `analysis_engine.py` (lines 10-16): the fixed weight
configuration used by the composite scorer. -/
structure Weights where
  sentiment : ℚ
  technical : ℚ
  cycle : ℚ
  social : ℚ
  overlay_3bar : ℚ
deriving DecidableEq, Repr

/-- The hard-coded default weight configuration:
sentiment 0.20, technical 0.40, cycle 0.25, social 0.05, overlay 0.10. -/
def WEIGHTS : Weights :=
  { sentiment := 1/5
    technical := 2/5
    cycle := 1/4
    social := 1/20
    overlay_3bar := 1/10 }

/-- `derive_recommendation` (line 24-26):
`"Comprar" if risk < 0.4 else ("Mantener" if risk < 0.6 else "Vender")`. -/
def derive_recommendation (risk : ℚ) : String :=
  if risk < 2/5 then "Comprar" else if risk < 3/5 then "Mantener" else "Vender"

/-- `norm` (lines 28-33): normalize `x` to [0,1] between `lo..hi`,
tolerating `None` and a degenerate range, clamping the result. -/
def norm (x : Option ℚ) (lo hi : ℚ) : ℚ :=
  match x with
  | Option.none => 1/2
  | Option.some x => if hi = lo then 1/2 else max 0 (min 1 ((x - lo) / (hi - lo)))

/-- The technical KPI readings for one asset: the fields
`technical_risk_from_kpis` reads from its `tech` dict argument. -/
structure TechKpis where
  rsi14 : Option ℚ
  macd : Option ℚ
  macd_signal : Option ℚ
  close_above_ma200 : Option Bool
deriving DecidableEq, Repr

/-- RSI branch of `technical_risk_from_kpis` (lines 50-58). -/
def rsi_risk_of (rsi : Option ℚ) : ℚ :=
  match rsi with
  | Option.none => 1/2
  | Option.some rsi =>
      if rsi ≥ 70 then 4/5
      else if rsi ≤ 30 then 1/5
      else norm (Option.some rsi) 30 70

/-- MACD branch of `technical_risk_from_kpis` (lines 60-64). -/
def macd_risk_of (macd macds : Option ℚ) : ℚ :=
  match macd, macds with
  | Option.some macd, Option.some macds => if macd > macds then 3/10 else 7/10
  | _, _ => 1/2

/-- MA200 branch of `technical_risk_from_kpis` (lines 66-70). -/
def ma_risk_of (above_ma : Option Bool) : ℚ :=
  match above_ma with
  | Option.none => 1/2
  | Option.some b => if b then 7/20 else 13/20

/-- 24h-change branch of `technical_risk_from_kpis` (lines 72-77):
`norm(-pct24, -10, 10) * 0.6 + 0.2`. -/
def ch_risk_of (pct24 : Option ℚ) : ℚ :=
  match pct24 with
  | Option.none => 1/2
  | Option.some pct => norm (Option.some (-pct)) (-10) 10 * (3/5) + 1/5

/-- `technical_risk_from_kpis` (lines 37-79): mean of the four branch
contributions, clamped to [0,1]. -/
def technical_risk_from_kpis (tech : TechKpis) (pct24 : Option ℚ) : ℚ :=
  let rsi_risk := rsi_risk_of tech.rsi14
  let macd_risk := macd_risk_of tech.macd tech.macd_signal
  let ma_risk := ma_risk_of tech.close_above_ma200
  let ch_risk := ch_risk_of pct24
  max 0 (min 1 ((rsi_risk + macd_risk + ma_risk + ch_risk) / 4))

/-- `sent_map` lookup of `compute_component_scores` (lines 91-92):
`{"bearish": 0.65, "neutral": 0.50, "bullish": 0.35}` with `.get`
default 0.50 for anything else. -/
def sent_map (cls : String) : ℚ :=
  if cls = "bearish" then 13/20
  else if cls = "neutral" then 1/2
  else if cls = "bullish" then 7/20
  else 1/2

/-- Cycle risk derivation of `compute_component_scores` (lines 86, 93):
`avg_cycle = (data.get("cycle") or {}).get("average_cycle", 0.5)` then
`cycle_risk = 1 - avg_cycle`. -/
def cycle_risk_of (avg_cycle : Option ℚ) : ℚ :=
  1 - avg_cycle.getD (1/2)

/-- The per-asset slice of the input dict: the values the per-coin loop
body of `compute_component_scores` (lines 96-119) retrieves for one
symbol — `technical[sym]`, `cmc[base].change_24h`, and
`(three_bar.get(sym) or {}).get("signal", "none")` already resolved to
its string (so a missing three-bar entry appears as `"none"`). -/
structure CoinData where
  tech : TechKpis
  pct24 : Option ℚ
  signal : String
deriving DecidableEq, Repr

/-- The engine's input: the asset list plus the whole-market readings,
with the dict-level defaults of lines 85-86 already resolved where the
source resolves them (`classification` missing means the field holds
`"neutral"`, the raw string otherwise; `average_cycle` stays optional
because its 0.5 default is applied in `cycle_risk_of`). -/
structure InputData where
  coins : List CoinData
  sentiment_cls : String
  avg_cycle : Option ℚ
deriving DecidableEq, Repr

/-- 3-bar overlay stage of `compute_component_scores` (lines 112-118):
`base = min(1.0, base + WEIGHTS["overlay_3bar"] * 0.5)` when the signal
is `"bearish"`, `base = max(0.0, base - WEIGHTS["overlay_3bar"] * 0.5)`
when `"bullish"`, and `base` unchanged otherwise. -/
def overlay_3bar_adjust (w : Weights) (sig : String) (base : ℚ) : ℚ :=
  if sig = "bearish" then min 1 (base + w.overlay_3bar * (1/2))
  else if sig = "bullish" then max 0 (base - w.overlay_3bar * (1/2))
  else base

/-- Body of the per-coin loop of `compute_component_scores`
(lines 96-119), parameterized by the weight configuration: weighted
base score followed by the 3-bar overlay adjustment. -/
def coin_score (w : Weights) (sentiment_risk cycle_risk : ℚ) (c : CoinData) : ℚ :=
  let tech_risk := technical_risk_from_kpis c.tech c.pct24
  let social_risk : ℚ := 1/2
  let base :=
    w.sentiment * sentiment_risk +
    w.technical * tech_risk +
    w.cycle * cycle_risk +
    w.social * social_risk
  overlay_3bar_adjust w c.signal base

/-- `compute_component_scores` (lines 83-122) with the weight dict as a
parameter: returns `(portfolio_risk, coin_scores)` where
`portfolio_risk = sum(coin_scores.values()) / max(1, len(coin_scores))`. -/
def compute_component_scoresW (w : Weights) (data : InputData) : ℚ × List ℚ :=
  let sentiment_risk := sent_map data.sentiment_cls
  let cycle_risk := cycle_risk_of data.avg_cycle
  let coin_scores := data.coins.map (coin_score w sentiment_risk cycle_risk)
  (coin_scores.sum / (max 1 coin_scores.length : ℕ), coin_scores)

/-- `compute_component_scores` as shipped: the loop with the hard-coded
`WEIGHTS`. -/
def compute_component_scores (data : InputData) : ℚ × List ℚ :=
  compute_component_scoresW WEIGHTS data

/-- Modelled from the spec: the repository contains no weight-vector
validation anywhere; this definition follows the words of spec §7(c)
("malformed weight vector (weights not summing to 1, or negative) — a
configuration error, surfaced to the caller before any scoring runs")
so that the shipped engine can be compared against it. -/
def compute_component_scores_validated (w : Weights) (data : InputData) :
    Except String (ℚ × List ℚ) :=
  if 0 ≤ w.sentiment ∧ 0 ≤ w.technical ∧ 0 ≤ w.cycle ∧ 0 ≤ w.social ∧
      0 ≤ w.overlay_3bar ∧
      w.sentiment + w.technical + w.cycle + w.social + w.overlay_3bar = 1 then
    Except.ok (compute_component_scoresW w data)
  else
    Except.error "invalid weight configuration"

/-! ### Helper lemmas -/

/-- The normalizer always lands in [0,1]. -/
theorem norm_bounds (x : Option ℚ) (lo hi : ℚ) :
    0 ≤ norm x lo hi ∧ norm x lo hi ≤ 1 := by
  cases x with
  | none => norm_num [norm]
  | some v =>
      simp only [norm]
      split_ifs with h
      · norm_num
      · exact ⟨le_max_left 0 _, max_le (by norm_num) (min_le_left 1 _)⟩

/-- The RSI contribution always lands in [0,1]. -/
theorem rsi_risk_bounds (rsi : Option ℚ) :
    0 ≤ rsi_risk_of rsi ∧ rsi_risk_of rsi ≤ 1 := by
  cases rsi with
  | none => norm_num [rsi_risk_of]
  | some v =>
      simp only [rsi_risk_of]
      split_ifs with h1 h2
      · norm_num
      · norm_num
      · exact norm_bounds (Option.some v) 30 70

/-- The MACD contribution is one of the three constants 0.3, 0.5, 0.7. -/
theorem macd_risk_cases (macd macds : Option ℚ) :
    macd_risk_of macd macds = 3/10 ∨ macd_risk_of macd macds = 1/2 ∨
      macd_risk_of macd macds = 7/10 := by
  cases macd with
  | none => simp [macd_risk_of]
  | some m =>
      cases macds with
      | none => simp [macd_risk_of]
      | some s =>
          simp only [macd_risk_of]
          split_ifs <;> simp

/-- The MA200 contribution is one of the three constants 0.35, 0.5, 0.65. -/
theorem ma_risk_cases (above_ma : Option Bool) :
    ma_risk_of above_ma = 7/20 ∨ ma_risk_of above_ma = 1/2 ∨
      ma_risk_of above_ma = 13/20 := by
  cases above_ma with
  | none => simp [ma_risk_of]
  | some b => cases b <;> simp [ma_risk_of]

/-- The 24h-change contribution always lands in [0.2, 0.8]. -/
theorem ch_risk_bounds (pct24 : Option ℚ) :
    1/5 ≤ ch_risk_of pct24 ∧ ch_risk_of pct24 ≤ 4/5 := by
  cases pct24 with
  | none => norm_num [ch_risk_of]
  | some p =>
      simp only [ch_risk_of]
      have h := norm_bounds (Option.some (-p)) (-10) 10
      constructor <;> nlinarith [h.1, h.2]

/-- The mean of the four technical contributions stays inside (0,1), so the
final clamp of `technical_risk_from_kpis` is the identity: the function
returns the plain mean of the four contributions. -/
theorem technical_risk_eq_mean (tech : TechKpis) (pct24 : Option ℚ) :
    technical_risk_from_kpis tech pct24 =
      (rsi_risk_of tech.rsi14 + macd_risk_of tech.macd tech.macd_signal +
        ma_risk_of tech.close_above_ma200 + ch_risk_of pct24) / 4 := by
  simp only [technical_risk_from_kpis]
  have hr := rsi_risk_bounds tech.rsi14
  have hm := macd_risk_cases tech.macd tech.macd_signal
  have hma := ma_risk_cases tech.close_above_ma200
  have hc := ch_risk_bounds pct24
  have hmb : 3/10 ≤ macd_risk_of tech.macd tech.macd_signal ∧
      macd_risk_of tech.macd tech.macd_signal ≤ 7/10 := by
    rcases hm with h | h | h <;> rw [h] <;> norm_num
  have hmab : 7/20 ≤ ma_risk_of tech.close_above_ma200 ∧
      ma_risk_of tech.close_above_ma200 ≤ 13/20 := by
    rcases hma with h | h | h <;> rw [h] <;> norm_num
  rw [min_eq_right, max_eq_right]
  · apply div_nonneg _ (by norm_num)
    linarith [hr.1, hmb.1, hmab.1, hc.1]
  · rw [div_le_one (by norm_num)]
    linarith [hr.2, hmb.2, hmab.2, hc.2]

/-- `technical_risk_from_kpis` always lands in [0.2125, 0.7875]. -/
theorem technical_risk_bounds (tech : TechKpis) (pct24 : Option ℚ) :
    17/80 ≤ technical_risk_from_kpis tech pct24 ∧
      technical_risk_from_kpis tech pct24 ≤ 63/80 := by
  rw [technical_risk_eq_mean]
  have hr := rsi_risk_bounds tech.rsi14
  have hm := macd_risk_cases tech.macd tech.macd_signal
  have hma := ma_risk_cases tech.close_above_ma200
  have hc := ch_risk_bounds pct24
  have hmb : 3/10 ≤ macd_risk_of tech.macd tech.macd_signal ∧
      macd_risk_of tech.macd tech.macd_signal ≤ 7/10 := by
    rcases hm with h | h | h <;> rw [h] <;> norm_num
  have hmab : 7/20 ≤ ma_risk_of tech.close_above_ma200 ∧
      ma_risk_of tech.close_above_ma200 ≤ 13/20 := by
    rcases hma with h | h | h <;> rw [h] <;> norm_num
  constructor
  · rw [le_div_iff₀ (by norm_num)]
    linarith [hr.1, hmb.1, hmab.1, hc.1]
  · rw [div_le_iff₀ (by norm_num)]
    linarith [hr.2, hmb.2, hmab.2, hc.2]

/-- The sentiment lookup always lands in [0.35, 0.65]. -/
theorem sent_map_bounds (cls : String) :
    7/20 ≤ sent_map cls ∧ sent_map cls ≤ 13/20 := by
  simp only [sent_map]
  split_ifs <;> norm_num

/-- A per-coin score lands in [0,1] whenever the sentiment and cycle
risks fed to it do. -/
theorem coin_score_bounds (w_sr w_cr : ℚ) (c : CoinData)
    (hcr0 : 0 ≤ w_cr) (hcr1 : w_cr ≤ 1)
    (hsr0 : 7/20 ≤ w_sr) (hsr1 : w_sr ≤ 13/20) :
    0 ≤ coin_score WEIGHTS w_sr w_cr c ∧ coin_score WEIGHTS w_sr w_cr c ≤ 1 := by
  have ht := technical_risk_bounds c.tech c.pct24
  simp only [coin_score, overlay_3bar_adjust, WEIGHTS]
  split_ifs
  · constructor
    · exact le_min (by norm_num) (by linarith [ht.1])
    · exact min_le_left 1 _
  · constructor
    · exact le_max_left 0 _
    · exact max_le (by norm_num) (by linarith [ht.2])
  · exact ⟨by linarith [ht.1], by linarith [ht.2]⟩

/-- Sum of a list of nonnegative rationals is nonnegative. -/
theorem list_sum_nonneg (l : List ℚ) (h : ∀ x ∈ l, 0 ≤ x) : 0 ≤ l.sum := by
  induction l with
  | nil => simp
  | cons a t ih =>
      simp only [List.sum_cons]
      have ha := h a (List.mem_cons_self a t)
      have ht := ih (fun x hx => h x (List.mem_cons_of_mem a hx))
      linarith

/-- Sum of a list of rationals each at most 1 is at most the length. -/
theorem list_sum_le_length (l : List ℚ) (h : ∀ x ∈ l, x ≤ 1) :
    l.sum ≤ l.length := by
  induction l with
  | nil => simp
  | cons a t ih =>
      simp only [List.sum_cons, List.length_cons]
      have ha := h a (List.mem_cons_self a t)
      have ht := ih (fun x hx => h x (List.mem_cons_of_mem a hx))
      push_cast
      linarith

/-! ### Concrete inputs used by witnesses and counterexamples -/

/-- A run with zero tracked assets. -/
def emptyInput : InputData :=
  { coins := [], sentiment_cls := "neutral", avg_cycle := Option.none }

/-- A run with one asset whose raw indicators are all missing. -/
def oneCoinInput : InputData :=
  { coins := [⟨⟨Option.none, Option.none, Option.none, Option.none⟩, Option.none, "none"⟩],
    sentiment_cls := "neutral", avg_cycle := Option.none }

/-- A run whose cycle reading lies outside [0,1]. -/
def badCycleInput : InputData :=
  { coins := [⟨⟨Option.none, Option.none, Option.none, Option.none⟩, Option.none, "none"⟩],
    sentiment_cls := "neutral", avg_cycle := Option.some 10 }

/-- The end-to-end scenario of the spec: rsi 75, macd 1 vs 0.5, close above
MA200, 24h change -12, cycle position 0.2, bearish 3-bar signal. -/
def scenarioInput : InputData :=
  { coins := [⟨⟨Option.some 75, Option.some 1, Option.some (1/2), Option.some true⟩,
      Option.some (-12), "bearish"⟩],
    sentiment_cls := "neutral", avg_cycle := Option.some (1/5) }

/-- A malformed weight configuration: a negative weight and a sum differing
from 1. -/
def badWeights : Weights :=
  { sentiment := -1/5
    technical := 2/5
    cycle := 1/4
    social := 1/20
    overlay_3bar := 1/10 }

/-! ### Claims -/

/-- C1, counterexample: on a run with zero assets `compute_component_scores`
returns portfolio risk 0 (the empty sum divided by `max(1,0) = 1`), not the
neutral 0.5 the claim states. -/
theorem claim_C1_counterexample :
    compute_component_scores emptyInput = (0, []) ∧ (0 : ℚ) ≠ 1/2 := by
  constructor
  · simp [compute_component_scores, compute_component_scoresW, emptyInput]
  · norm_num

/-- C1, amended: for a run with zero assets `compute_component_scores`
returns a portfolio risk of exactly 0 (never an error); for a non-empty
asset set the portfolio risk equals the arithmetic mean of the per-asset
composite scores. -/
theorem claim_C1_portfolio_mean (d : InputData) :
    (d.coins = [] → (compute_component_scores d).1 = 0) ∧
    (d.coins ≠ [] →
      (compute_component_scores d).1 =
        ((compute_component_scores d).2).sum /
          (((compute_component_scores d).2).length : ℚ)) := by
  constructor
  · intro h
    simp [compute_component_scores, compute_component_scoresW, h]
  · intro h
    simp only [compute_component_scores, compute_component_scoresW,
      List.length_map]
    have hpos : 1 ≤ d.coins.length :=
      Nat.one_le_iff_ne_zero.mpr (fun hl => h (List.length_eq_zero.mp hl))
    rw [Nat.max_eq_right hpos]

/-- C1, witness: the amended statement evaluated at a zero-asset run and at
a one-asset run. -/
theorem claim_C1_witness :
    (compute_component_scores emptyInput).1 = 0 ∧
    (compute_component_scores oneCoinInput).1 =
      ((compute_component_scores oneCoinInput).2).sum /
        (((compute_component_scores oneCoinInput).2).length : ℚ) :=
  ⟨(claim_C1_portfolio_mean emptyInput).1 rfl,
   (claim_C1_portfolio_mean oneCoinInput).2 (by simp [oneCoinInput])⟩

/-- C2, counterexample: the cycle factor is never clamped, so an
out-of-domain cycle reading escapes [0,1] and propagates into a negative
final per-asset risk (here `average_cycle = 10` gives risk `-77/40`). -/
theorem claim_C2_counterexample :
    cycle_risk_of (Option.some 2) = -1 ∧
    (compute_component_scores badCycleInput).2 = [-77/40] ∧
    ¬ (0 ≤ (-77/40 : ℚ)) := by
  refine ⟨by norm_num [cycle_risk_of], ?_, by norm_num⟩
  norm_num [compute_component_scores, compute_component_scoresW, badCycleInput,
    coin_score, overlay_3bar_adjust, technical_risk_from_kpis, rsi_risk_of,
    macd_risk_of, ma_risk_of, ch_risk_of, sent_map, cycle_risk_of, WEIGHTS]
  rw [if_neg (by decide : ¬("none" : String) = "bearish"),
    if_neg (by decide : ¬("none" : String) = "bullish"),
    if_neg (by decide : ¬("neutral" : String) = "bearish")]
  norm_num

/-- C2, amended: provided the cycle reading (when present) lies in [0,1],
every derived factor risk (sentiment, technical, cycle) and every per-asset
and portfolio risk lies in [0,1]; but quantities are not clamped after every
arithmetic step — `cycle_risk = 1 - average_cycle` is unclamped, so
out-of-domain cycle readings do propagate. -/
theorem claim_C2_range_invariant (d : InputData)
    (h : ∀ a ∈ d.avg_cycle, 0 ≤ a ∧ a ≤ 1) :
    (0 ≤ cycle_risk_of d.avg_cycle ∧ cycle_risk_of d.avg_cycle ≤ 1) ∧
    (0 ≤ sent_map d.sentiment_cls ∧ sent_map d.sentiment_cls ≤ 1) ∧
    (∀ tech pct24, 0 ≤ technical_risk_from_kpis tech pct24 ∧
      technical_risk_from_kpis tech pct24 ≤ 1) ∧
    (∀ s ∈ (compute_component_scores d).2, 0 ≤ s ∧ s ≤ 1) ∧
    (0 ≤ (compute_component_scores d).1 ∧ (compute_component_scores d).1 ≤ 1) := by
  have hcy : 0 ≤ cycle_risk_of d.avg_cycle ∧ cycle_risk_of d.avg_cycle ≤ 1 := by
    unfold cycle_risk_of
    cases hac : d.avg_cycle with
    | none => norm_num
    | some a =>
        have := h a (by rw [hac]; rfl)
        simp only [Option.getD_some]
        constructor <;> linarith [this.1, this.2]
  have hsent := sent_map_bounds d.sentiment_cls
  have hscores : ∀ s ∈ (compute_component_scores d).2, 0 ≤ s ∧ s ≤ 1 := by
    intro s hs
    simp only [compute_component_scores, compute_component_scoresW,
      List.mem_map] at hs
    obtain ⟨c, _, hc⟩ := hs
    rw [← hc]
    exact coin_score_bounds _ _ c hcy.1 hcy.2 hsent.1 hsent.2
  refine ⟨hcy, ⟨by linarith [hsent.1], by linarith [hsent.2]⟩,
    ?_, hscores, ?_⟩
  · intro tech pct24
    have := technical_risk_bounds tech pct24
    constructor <;> linarith [this.1, this.2]
  · have h0 : 0 ≤ ((compute_component_scores d).2).sum :=
      list_sum_nonneg _ (fun x hx => (hscores x hx).1)
    have h1 : ((compute_component_scores d).2).sum ≤
        ((compute_component_scores d).2).length :=
      list_sum_le_length _ (fun x hx => (hscores x hx).2)
    have hden : (1:ℚ) ≤ ((max 1 ((compute_component_scores d).2).length : ℕ) : ℚ) := by
      exact_mod_cast Nat.le_max_left 1 _
    have hlen : ((((compute_component_scores d).2).length : ℕ) : ℚ) ≤
        ((max 1 ((compute_component_scores d).2).length : ℕ) : ℚ) := by
      exact_mod_cast Nat.le_max_right 1 _
    have hfst : (compute_component_scores d).1 =
        ((compute_component_scores d).2).sum /
          ((max 1 ((compute_component_scores d).2).length : ℕ) : ℚ) := by
      simp only [compute_component_scores, compute_component_scoresW,
        List.length_map]
    rw [hfst]
    constructor
    · exact div_nonneg h0 (by linarith)
    · rw [div_le_one (by linarith)]
      linarith

/-- C2, witness: the amended invariant evaluated at the spec's end-to-end
scenario input (cycle position 0.2). -/
theorem claim_C2_witness :
    0 ≤ (compute_component_scores scenarioInput).1 ∧
    (compute_component_scores scenarioInput).1 ≤ 1 := by
  have h := claim_C2_range_invariant scenarioInput (by
    intro a ha
    simp only [scenarioInput, Option.mem_def, Option.some.injEq] at ha
    rw [← ha]
    norm_num)
  exact h.2.2.2.2

/-- C3, counterexample: with a malformed weight vector (negative sentiment
weight, weights summing to 0.6) the engine still computes a score — it never
surfaces a configuration error — while the spec-modelled validated engine
rejects that configuration. -/
theorem claim_C3_counterexample :
    compute_component_scores_validated badWeights oneCoinInput =
      Except.error "invalid weight configuration" ∧
    compute_component_scoresW badWeights oneCoinInput = (1/4, [1/4]) := by
  constructor
  · simp only [compute_component_scores_validated, badWeights]
    rw [if_neg]
    intro hc
    have := hc.1
    norm_num at this
  · norm_num [compute_component_scoresW, oneCoinInput, badWeights,
      coin_score, overlay_3bar_adjust, technical_risk_from_kpis, rsi_risk_of,
      macd_risk_of, ma_risk_of, ch_risk_of, sent_map, cycle_risk_of]
    rw [if_neg (by decide : ¬("none" : String) = "bearish"),
      if_neg (by decide : ¬("none" : String) = "bullish"),
      if_neg (by decide : ¬("neutral" : String) = "bearish")]
    norm_num

/-- C3, amended: the engine performs no weight validation — the hard-coded
`WEIGHTS` does satisfy the sum-to-one invariant (0.20+0.40+0.25+0.05+0.10),
but `compute_component_scores` computes one score per asset under any weight
vector whatsoever, malformed or not, never refusing. -/
theorem claim_C3_no_validation :
    (WEIGHTS.sentiment + WEIGHTS.technical + WEIGHTS.cycle + WEIGHTS.social +
      WEIGHTS.overlay_3bar = 1) ∧
    ∀ (w : Weights) (d : InputData),
      ((compute_component_scoresW w d).2).length = d.coins.length := by
  refine ⟨by norm_num [WEIGHTS], ?_⟩
  intro w d
  simp [compute_component_scoresW]

/-- C4: recommendation classification is a total gapless thresholding —
risk below 0.4 yields Comprar (Buy), risk in [0.4, 0.6) yields Mantener
(Hold), risk at least 0.6 yields Vender (Sell); in particular 0.4 exactly
is Hold and 0.6 exactly is Sell. -/
theorem claim_C4_recommendation_thresholds (r : ℚ) :
    (r < 2/5 → derive_recommendation r = "Comprar") ∧
    (2/5 ≤ r → r < 3/5 → derive_recommendation r = "Mantener") ∧
    (3/5 ≤ r → derive_recommendation r = "Vender") ∧
    derive_recommendation (2/5) = "Mantener" ∧
    derive_recommendation (3/5) = "Vender" := by
  refine ⟨?_, ?_, ?_, ?_, ?_⟩
  · intro h
    simp only [derive_recommendation, if_pos h]
  · intro h1 h2
    simp only [derive_recommendation]
    rw [if_neg (not_lt.mpr h1), if_pos h2]
  · intro h
    simp only [derive_recommendation]
    rw [if_neg (not_lt.mpr (by linarith)), if_neg (not_lt.mpr h)]
  · norm_num [derive_recommendation]
  · norm_num [derive_recommendation]

/-- C4, witness: the three bands evaluated at 0.2, 0.5 and 0.7. -/
theorem claim_C4_witness :
    derive_recommendation (1/5) = "Comprar" ∧
    derive_recommendation (1/2) = "Mantener" ∧
    derive_recommendation (7/10) = "Vender" :=
  ⟨(claim_C4_recommendation_thresholds (1/5)).1 (by norm_num),
   (claim_C4_recommendation_thresholds (1/2)).2.1 (by norm_num) (by norm_num),
   (claim_C4_recommendation_thresholds (7/10)).2.2.1 (by norm_num)⟩

/-- C5: the RSI contribution is 0.8 for rsi14 at or above 70, 0.2 at or
below 30, the linear interpolation (rsi14 - 30)/40 strictly in between
(so rsi14 = 50 gives exactly 0.5), and 0.5 when rsi14 is missing. -/
theorem claim_C5_rsi_contribution (rsi : ℚ) :
    rsi_risk_of (Option.some rsi) =
      (if 70 ≤ rsi then 4/5 else if rsi ≤ 30 then 1/5 else (rsi - 30) / 40) ∧
    rsi_risk_of (Option.some 50) = 1/2 ∧
    rsi_risk_of Option.none = 1/2 := by
  refine ⟨?_, by norm_num [rsi_risk_of, norm], by norm_num [rsi_risk_of]⟩
  simp only [rsi_risk_of, norm, ge_iff_le]
  split_ifs with h1 h2 h3
  · rfl
  · rfl
  · norm_num at h3
  · have hub : (rsi - 30) / (70 - 30 : ℚ) ≤ 1 := by
      rw [div_le_one (by norm_num)]
      linarith
    have hlb : (0:ℚ) ≤ (rsi - 30) / (70 - 30) :=
      div_nonneg (by linarith) (by norm_num)
    rw [min_eq_right hub, max_eq_right hlb]
    norm_num

/-- C6: the 3-bar overlay with the shipped overlay weight 0.10 maps a base
score b to min(1, b+0.05) under a bearish signal, max(0, b-0.05) under a
bullish signal, and leaves b unchanged under any other signal; for b in
[0,1] it shifts the score by at most half the overlay weight. -/
theorem claim_C6_overlay (b : ℚ) (s : String) :
    overlay_3bar_adjust WEIGHTS "bearish" b = min 1 (b + 1/20) ∧
    overlay_3bar_adjust WEIGHTS "bullish" b = max 0 (b - 1/20) ∧
    (s ≠ "bearish" → s ≠ "bullish" → overlay_3bar_adjust WEIGHTS s b = b) ∧
    (0 ≤ b → b ≤ 1 →
      |overlay_3bar_adjust WEIGHTS s b - b| ≤ (1/2) * WEIGHTS.overlay_3bar) := by
  have harg : WEIGHTS.overlay_3bar * (1/2 : ℚ) = 1/20 := by norm_num [WEIGHTS]
  have hbear : overlay_3bar_adjust WEIGHTS "bearish" b = min 1 (b + 1/20) := by
    simp only [overlay_3bar_adjust, harg]
    norm_num
  have hbull : overlay_3bar_adjust WEIGHTS "bullish" b = max 0 (b - 1/20) := by
    simp only [overlay_3bar_adjust, harg]
    rw [if_neg (by decide : ¬("bullish" : String) = "bearish")]
    simp
  have hw : ((1:ℚ)/2) * WEIGHTS.overlay_3bar = 1/20 := by norm_num [WEIGHTS]
  refine ⟨hbear, hbull, ?_, ?_⟩
  · intro h1 h2
    simp [overlay_3bar_adjust, h1, h2]
  · intro hb0 hb1
    rw [hw]
    by_cases hs1 : s = "bearish"
    · subst hs1
      rw [hbear, abs_le]
      constructor
      · have hx : b ≤ min 1 (b + 1/20) := le_min hb1 (by linarith)
        linarith
      · have hx := min_le_right (1:ℚ) (b + 1/20)
        linarith
    · by_cases hs2 : s = "bullish"
      · subst hs2
        rw [hbull, abs_le]
        constructor
        · have hx := le_max_right (0:ℚ) (b - 1/20)
          linarith
        · have hx : max 0 (b - 1/20) ≤ b := max_le hb0 (by linarith)
          linarith
      · rw [show overlay_3bar_adjust WEIGHTS s b = b from by
          simp [overlay_3bar_adjust, hs1, hs2]]
        norm_num

/-- C6, witness: the overlay at base score 0.5 under a bearish signal. -/
theorem claim_C6_witness :
    overlay_3bar_adjust WEIGHTS "bearish" (1/2) = min 1 ((1:ℚ)/2 + 1/20) ∧
    |overlay_3bar_adjust WEIGHTS "bearish" (1/2) - 1/2| ≤
      (1/2) * WEIGHTS.overlay_3bar :=
  ⟨(claim_C6_overlay (1/2) "bearish").1,
   (claim_C6_overlay (1/2) "bearish").2.2.2 (by norm_num) (by norm_num)⟩

/-- C7: the per-asset technical risk is the unweighted arithmetic mean of
the four indicator contributions clamped to [0,1], each contribution
defaults to 0.5 on missing input, and with all four raw inputs missing the
result is exactly 0.5. -/
theorem claim_C7_technical_mean (tech : TechKpis) (pct24 : Option ℚ) :
    technical_risk_from_kpis tech pct24 =
      max 0 (min 1 ((rsi_risk_of tech.rsi14 +
        macd_risk_of tech.macd tech.macd_signal +
        ma_risk_of tech.close_above_ma200 + ch_risk_of pct24) / 4)) ∧
    rsi_risk_of Option.none = 1/2 ∧
    macd_risk_of Option.none Option.none = 1/2 ∧
    ma_risk_of Option.none = 1/2 ∧
    ch_risk_of Option.none = 1/2 ∧
    technical_risk_from_kpis
      ⟨Option.none, Option.none, Option.none, Option.none⟩ Option.none = 1/2 := by
  refine ⟨rfl, rfl, rfl, rfl, rfl, ?_⟩
  norm_num [technical_risk_from_kpis, rsi_risk_of, macd_risk_of, ma_risk_of,
    ch_risk_of]

/-- C8: the 24h-change contribution is clamp((-pct+10)/20, 0, 1)·0.6 + 0.2
for every present reading, hitting exactly 0.8, 0.2 and 0.5 at pct = -10,
+10 and 0, and 0.5 when the reading is missing. -/
theorem claim_C8_change_contribution (pct : ℚ) :
    ch_risk_of (Option.some pct) =
      max 0 (min 1 ((-pct + 10) / 20)) * (3/5) + 1/5 ∧
    ch_risk_of (Option.some (-10)) = 4/5 ∧
    ch_risk_of (Option.some 10) = 1/5 ∧
    ch_risk_of (Option.some 0) = 1/2 ∧
    ch_risk_of Option.none = 1/2 := by
  refine ⟨?_, by norm_num [ch_risk_of, norm], by norm_num [ch_risk_of, norm],
    by norm_num [ch_risk_of, norm], by norm_num [ch_risk_of]⟩
  simp only [ch_risk_of, norm]
  rw [if_neg (by norm_num)]
  have harg : (-pct - -10) / (10 - -10 : ℚ) = (-pct + 10) / 20 := by ring
  rw [harg]

/-- C9: for every combination of present, missing or out-of-range raw
technical inputs, the MACD contribution is one of 0.3/0.5/0.7, the MA200
contribution one of 0.35/0.5/0.65, the 24h-change contribution in
[0.2, 0.8], the RSI contribution in [0,1]; the final clamp is never active
and `technical_risk_from_kpis` lands in [0.2125, 0.7875]. -/
theorem claim_C9_technical_range (tech : TechKpis) (pct24 : Option ℚ) :
    (macd_risk_of tech.macd tech.macd_signal = 3/10 ∨
      macd_risk_of tech.macd tech.macd_signal = 1/2 ∨
      macd_risk_of tech.macd tech.macd_signal = 7/10) ∧
    (ma_risk_of tech.close_above_ma200 = 7/20 ∨
      ma_risk_of tech.close_above_ma200 = 1/2 ∨
      ma_risk_of tech.close_above_ma200 = 13/20) ∧
    (1/5 ≤ ch_risk_of pct24 ∧ ch_risk_of pct24 ≤ 4/5) ∧
    (0 ≤ rsi_risk_of tech.rsi14 ∧ rsi_risk_of tech.rsi14 ≤ 1) ∧
    technical_risk_from_kpis tech pct24 =
      (rsi_risk_of tech.rsi14 + macd_risk_of tech.macd tech.macd_signal +
        ma_risk_of tech.close_above_ma200 + ch_risk_of pct24) / 4 ∧
    17/80 ≤ technical_risk_from_kpis tech pct24 ∧
    technical_risk_from_kpis tech pct24 ≤ 63/80 :=
  ⟨macd_risk_cases tech.macd tech.macd_signal,
   ma_risk_cases tech.close_above_ma200,
   ch_risk_bounds pct24,
   rsi_risk_bounds tech.rsi14,
   technical_risk_eq_mean tech pct24,
   (technical_risk_bounds tech pct24).1,
   (technical_risk_bounds tech pct24).2⟩

/-- C10: the RSI contribution is not monotone in rsi14 — it is
discontinuous at both regime boundaries: 69 maps to 0.975 but 70 to 0.8,
and 30 maps to 0.2 but 31 to 0.025, so a lower reading can carry a strictly
higher contribution. -/
theorem claim_C10_rsi_discontinuity :
    rsi_risk_of (Option.some 69) = 39/40 ∧
    rsi_risk_of (Option.some 70) = 4/5 ∧
    rsi_risk_of (Option.some 30) = 1/5 ∧
    rsi_risk_of (Option.some 31) = 1/40 ∧
    ∃ r1 r2 : ℚ, r1 < r2 ∧
      rsi_risk_of (Option.some r2) < rsi_risk_of (Option.some r1) := by
  refine ⟨by norm_num [rsi_risk_of, norm], by norm_num [rsi_risk_of, norm],
    by norm_num [rsi_risk_of, norm], by norm_num [rsi_risk_of, norm],
    69, 70, by norm_num, ?_⟩
  norm_num [rsi_risk_of, norm]

end AnalysisEngine
